import Mathlib

/-!
Verification development for a single-file FastAPI backend relaying the
WhatsApp Cloud API (file `main.py`).  The endpoints modelled here:

  * `GET /webhook`   (`verify_webhook`)   — subscription handshake
  * `POST /webhook`  (`receive_webhook`)  — inbound event dispatcher
  * `POST /send-message` / `send_whatsapp_text` — outbound text send
  * `POST /send-template` (`send_template`)     — outbound template send
  * `GET /media/{media_id}` (`get_media`)       — media fetch proxy

JSON bodies are modelled by an inductive `Json` type (numbers as `Int`;
the claims under study involve no floating-point values).  Python
expressions such as `data["entry"]`, `lst[0]`, `"messages" in value` are
modelled by total functions into `Except Unit _`, where `.error ()`
stands for the Python exception (`KeyError`, `IndexError`, `TypeError`)
the expression would raise.  Outbound HTTP traffic is modelled by
recording the calls the handler issues; upstream responses are supplied
as explicit arguments.
-/

namespace WhatsAppBackend

/-- A parsed JSON value, as produced by `await request.json()` /
`response.json()`.  Numbers are modelled as integers (no claim involves
a fractional number).  Objects keep their members in order; duplicate
keys are resolved last-wins, as `json.loads` does (see `lookupField`). -/
inductive Json where
  | null : Json
  | bool : Bool → Json
  | num : Int → Json
  | str : String → Json
  | arr : List Json → Json
  | obj : List (String × Json) → Json

/-- Python equality `j == s` between a parsed JSON value and a string
literal: true exactly when `j` is the string `s` (comparison with a
non-string value is simply `False`, never an error). -/
def Json.eqStr (j : Json) (s : String) : Bool :=
  match j with
  | .str t => t == s
  | _ => false

/-- Python `dict` lookup on the member list of a parsed JSON object.
`json.loads` keeps the **last** binding of a duplicated key, so later
members override earlier ones. -/
def lookupField : List (String × Json) → String → Option Json
  | [], _ => none
  | (k, v) :: rest, key =>
    match lookupField rest key with
    | some v2 => some v2
    | none => if k = key then some v else none

/-- Python subscript `x[key]` with a string key: succeeds only on a
`dict` whose key is present (`KeyError` otherwise); every other type
raises `TypeError`.  `.error ()` is the raised exception. -/
def pySubscriptStr (j : Json) (key : String) : Except Unit Json :=
  match j with
  | .obj fields =>
    match lookupField fields key with
    | some v => .ok v
    | none => .error ()
  | _ => .error ()

/-- Python subscript `x[i]` with a non-negative integer index: succeeds
on a list (`IndexError` when out of range) and on a string (yielding the
one-character string); every other type raises `TypeError`. -/
def pySubscriptNat (j : Json) (i : Nat) : Except Unit Json :=
  match j with
  | .arr xs =>
    match xs.get? i with
    | some v => .ok v
    | none => .error ()
  | .str s =>
    match s.data.get? i with
    | some c => .ok (.str (String.singleton c))
    | none => .error ()
  | _ => .error ()

/-- `needle` occurs as a prefix of some suffix of the character list
(auxiliary to `strContains`). -/
def strContainsAux (needle : List Char) : List Char → Bool
  | [] => needle.isEmpty
  | c :: rest => needle.isPrefixOf (c :: rest) || strContainsAux needle rest

/-- `needle` occurs as a contiguous substring of `hay` (Python
`needle in hay` on strings). -/
def strContains (hay needle : String) : Bool :=
  strContainsAux needle.data hay.data

/-- Python membership test `key in x` for a string `key`: key lookup on
a `dict`, element equality on a list, substring test on a string;
`TypeError` (modelled `.error ()`) on `None`, booleans and numbers. -/
def pyInStr (key : String) (j : Json) : Except Unit Bool :=
  match j with
  | .obj fields => .ok (fields.any fun kv => kv.1 == key)
  | .arr xs => .ok (xs.any fun x => x.eqStr key)
  | .str s => .ok (strContains s key)
  | _ => .error ()

-- ---------------------------------------------------------------------
-- CONFIG (main.py lines 78-82).  The three environment settings are
-- `os.getenv` results: absent variables yield Python `None`, modelled
-- as `Option String`.  They are supplied as explicit parameters to the
-- handlers that read them.
-- ---------------------------------------------------------------------

/-- `GRAPH_API_BASE = "https://graph.facebook.com/v18.0"`. -/
def GRAPH_API_BASE : String := "https://graph.facebook.com/v18.0"

-- ---------------------------------------------------------------------
-- 1. GET /webhook — verify_webhook (main.py lines 113-122)
-- ---------------------------------------------------------------------

/-- Outcome of `verify_webhook`: either HTTP 200 with the (possibly
absent) `hub.challenge` echoed as plain text, or the raised
`HTTPException(status_code=403, detail=...)`. -/
inductive VerifyResult where
  | challenge : Option String → VerifyResult
  | forbidden : String → VerifyResult
deriving DecidableEq

/-- `verify_webhook` : the three query parameters default to `None`
when absent (`Query(None, alias=...)`).  The guard is Python
`hub_mode == "subscribe" and hub_verify_token == VERIFY_TOKEN`;
note `None == None` is `True`, so an unset `WHATSAPP_VERIFY_TOKEN`
compares equal to an absent `hub.verify_token`. -/
def verify_webhook (VERIFY_TOKEN : Option String)
    (hub_mode hub_verify_token hub_challenge : Option String) : VerifyResult :=
  if hub_mode = some "subscribe" ∧ hub_verify_token = VERIFY_TOKEN then
    .challenge hub_challenge
  else
    .forbidden "Verification failed"

-- ---------------------------------------------------------------------
-- Python string conversion, used by the f-string
-- `f"You said: {text}"` (main.py line 170).  `text` is whatever JSON
-- value sits under `message["text"]["body"]`, so the conversion must
-- cover every shape, as Python `str()` does.
-- ---------------------------------------------------------------------

/-- Two lowercase hex digits of a byte, as in Python escape `\xHH`. -/
def hexByte (n : Nat) : String :=
  let digit := fun (d : Nat) => String.singleton (
    if d < 10 then Char.ofNat (48 + d) else Char.ofNat (87 + d))
  digit (n / 16 % 16) ++ digit (n % 16)

/-- One character of a Python `repr` of a string, escaped for the given
quote character: backslash, the quote, newline, carriage return and tab
get two-character escapes; other ASCII control characters (and 0x7f)
become `\xHH`; everything else stands for itself. -/
def pyEscapeChar (quote : Char) (c : Char) : String :=
  if c == Char.ofNat 92 then "\\\\"
  else if c == quote then "\\" ++ String.singleton quote
  else if c == Char.ofNat 10 then "\\n"
  else if c == Char.ofNat 13 then "\\r"
  else if c == Char.ofNat 9 then "\\t"
  else if c.toNat < 32 || c.toNat == 127 then "\\x" ++ hexByte c.toNat
  else String.singleton c

/-- Python `repr` of a string: single-quoted, unless the string holds a
single quote but no double quote, in which case it is double-quoted. -/
def pyReprStr (s : String) : String :=
  let sq : Char := Char.ofNat 39
  let dq : Char := Char.ofNat 34
  let quote :=
    if (s.data.any fun c => c == sq) && !(s.data.any fun c => c == dq)
    then dq else sq
  String.singleton quote
    ++ String.join (s.data.map (pyEscapeChar quote))
    ++ String.singleton quote

mutual
/-- Python `repr` of a value parsed from JSON: `None`/`True`/`False`
for the constants, decimal for integers, quoted-and-escaped strings,
`[a, b]` for lists and `\x7bk: v\x7d` for dicts (with `repr` applied to
the nested parts, as Python containers do). -/
def pyRepr : Json → String
  | .null => "None"
  | .bool true => "True"
  | .bool false => "False"
  | .num n => toString n
  | .str s => pyReprStr s
  | .arr xs => "[" ++ String.intercalate ", " (pyReprArr xs) ++ "]"
  | .obj fields => "\x7b" ++ String.intercalate ", " (pyReprObj fields) ++ "\x7d"

def pyReprArr : List Json → List String
  | [] => []
  | x :: xs => pyRepr x :: pyReprArr xs

def pyReprObj : List (String × Json) → List String
  | [] => []
  | (k, v) :: rest => (pyReprStr k ++ ": " ++ pyRepr v) :: pyReprObj rest
end

/-- Python `str()` of a value parsed from JSON, as an f-string
interpolation performs: a string stands for itself (no quotes); every
other shape formats as its `repr`. -/
def pyStr : Json → String
  | .str s => s
  | j => pyRepr j

-- ---------------------------------------------------------------------
-- 2. POST /webhook — receive_webhook (main.py lines 137-194)
-- ---------------------------------------------------------------------

/-- One outbound text send triggered by the dispatcher: the arguments
`send_whatsapp_text(sender_phone, f"You said: {text}")` receives.
`phone` is `message["from"]` exactly as found in the envelope (the code
never checks it is a string). -/
structure TextSend where
  phone : Json
  body : String

/-- Outcome of `receive_webhook`: `ok` is HTTP 200 with body
`{"status": "ok"}`; `raised` means an exception escaped the handler
(the framework then answers 500, not the success acknowledgment). -/
inductive ReceiveResult where
  | ok : ReceiveResult
  | raised : ReceiveResult
deriving DecidableEq

/-- Navigation prefix of the `try:` block (main.py lines 147-149):
`entry = data["entry"][0]; change = entry["changes"][0];
value = change["value"]`. -/
def webhookNavigate (data : Json) : Except Unit Json := do
  let entry ← pySubscriptNat (← pySubscriptStr data "entry") 0
  let change ← pySubscriptNat (← pySubscriptStr entry "changes") 0
  pySubscriptStr change "value"

/-- The `if "messages" in value:` branch (main.py lines 152-185):
`message = value["messages"][0]`, read `message["from"]` and
`message["type"]`, then branch on the declared type.  Only the `text`
branch triggers a send, `send_whatsapp_text(sender_phone,
f"You said: {text}")`; the `audio`/`image` branches merely read the
media id (which can itself raise). -/
def webhookMessages (value : Json) : Except Unit (List TextSend) :=
  match pySubscriptStr value "messages" >>= fun ms => pySubscriptNat ms 0 with
  | .error () => .error ()
  | .ok message =>
    match pySubscriptStr message "from" with
    | .error () => .error ()
    | .ok sender_phone =>
      match pySubscriptStr message "type" with
      | .error () => .error ()
      | .ok msg_type =>
        if msg_type.eqStr "text" then
          match pySubscriptStr message "text" >>= fun t => pySubscriptStr t "body" with
          | .error () => .error ()
          | .ok text => .ok [⟨sender_phone, "You said: " ++ pyStr text⟩]
        else if msg_type.eqStr "audio" then
          match pySubscriptStr message "audio" >>= fun a => pySubscriptStr a "id" with
          | .error () => .error ()
          | .ok _media_id => .ok []
        else if msg_type.eqStr "image" then
          match pySubscriptStr message "image" >>= fun i => pySubscriptStr i "id" with
          | .error () => .error ()
          | .ok _media_id => .ok []
        else
          .ok []

/-- Branching of the `try:` block on the navigated `value` (main.py
lines 152-189): the `messages` branch when `"messages" in value`, else
the `statuses` branch (which only reads `value["statuses"]` for
printing), else nothing.  Python evaluates the `elif` condition only
when the first is false, and either membership test raises `TypeError`
on a non-container `value`. -/
def webhookDispatch (value : Json) : Except Unit (List TextSend) :=
  match pyInStr "messages" value with
  | .error () => .error ()
  | .ok true => webhookMessages value
  | .ok false =>
    match pyInStr "statuses" value with
    | .error () => .error ()
    | .ok true =>
      match pySubscriptStr value "statuses" with
      | .error () => .error ()
      | .ok _statuses => .ok []
    | .ok false => .ok []

/-- The whole `try:` block of `receive_webhook` (main.py lines
146-190), returning the outbound text sends it triggers; `.error ()` is
any exception raised inside the block before a send could happen. -/
def webhookTryBlock (data : Json) : Except Unit (List TextSend) :=
  webhookNavigate data >>= webhookDispatch

/-- `receive_webhook`.  The argument is the result of
`data = await request.json()`: `some data` when the request body parses
as JSON, `none` when parsing raises (`request.json()` sits **before**
the `try:` block, so that exception is not caught).  Returns the HTTP
outcome together with the outbound text sends the handler triggered:
the `try/except` turns any `.error ()` of the block into zero sends,
and the handler then returns `{"status": "ok"}`. -/
def receive_webhook (body : Option Json) : ReceiveResult × List TextSend :=
  match body with
  | none => (.raised, [])
  | some data =>
    match webhookTryBlock data with
    | .ok sends => (.ok, sends)
    | .error () => (.ok, [])

-- ---------------------------------------------------------------------
-- Outbound HTTP plumbing shared by the senders and the media proxy.
-- ---------------------------------------------------------------------

/-- Python f-string interpolation of an `os.getenv` result: an unset
variable is `None` and formats as the four letters `None`. -/
def pyStrOpt : Option String → String
  | some s => s
  | none => "None"

/-- An outbound `requests.post(url, headers=headers, json=body)` call
as the handler issues it. -/
structure HttpPost where
  url : String
  headers : List (String × String)
  body : Json

/-- An outbound `requests.get(url, headers=headers)` call. -/
structure HttpGet where
  url : String
  headers : List (String × String)

/-- An upstream HTTP response as the `requests` library exposes it:
`status_code`, the parsed `.json()` body (the claims under study only
exercise responses whose body parses as JSON), the response headers and
the raw `.content` bytes. -/
structure HttpResponse where
  status_code : Int
  json : Json
  headers : List (String × String)
  content : List Nat

/-- `requests` response-header lookup (`headers.get(key)`): the header
mapping is case-insensitive. -/
def headersGet (headers : List (String × String)) (key : String) : Option String :=
  (headers.find? fun kv => kv.1.toLower == key.toLower).map fun kv => kv.2

/-- A `dict.get` result placed into a response dict: Python `None`
serialises as JSON `null`. -/
def jsonOfOptStr : Option String → Json
  | some s => .str s
  | none => .null

-- ---------------------------------------------------------------------
-- 3. POST /send-message — send_message / send_whatsapp_text
--    (main.py lines 206-231)
-- ---------------------------------------------------------------------

/-- Request body of `POST /send-message`, pydantic model `SendMessage`:
two required string fields. -/
structure SendMessage where
  phone : String
  message : String

/-- The `requests.post` call `send_whatsapp_text` issues: URL
`f"{GRAPH_API_BASE}/{PHONE_NUMBER_ID}/messages"`, bearer-token
`Authorization` header, and the text-type message payload.  `phone` is
kept as a JSON value because the webhook dispatcher passes
`message["from"]` through unchecked. -/
def send_whatsapp_text_request (PHONE_NUMBER_ID ACCESS_TOKEN : Option String)
    (phone : Json) (message : String) : HttpPost :=
  ⟨GRAPH_API_BASE ++ "/" ++ pyStrOpt PHONE_NUMBER_ID ++ "/messages",
   [("Authorization", "Bearer " ++ pyStrOpt ACCESS_TOKEN),
    ("Content-Type", "application/json")],
   .obj [("messaging_product", .str "whatsapp"),
         ("to", phone),
         ("type", .str "text"),
         ("text", .obj [("body", .str message)])]⟩

/-- `send_whatsapp_text(phone, message)` given the upstream response to
its POST: returns the call it issued together with its return value
`{"status_code": response.status_code, "response": response.json()}`. -/
def send_whatsapp_text (PHONE_NUMBER_ID ACCESS_TOKEN : Option String)
    (phone : Json) (message : String) (response : HttpResponse) : HttpPost × Json :=
  (send_whatsapp_text_request PHONE_NUMBER_ID ACCESS_TOKEN phone message,
   .obj [("status_code", .num response.status_code),
         ("response", response.json)])

/-- `POST /send-message` handler: delegates to `send_whatsapp_text`. -/
def send_message (PHONE_NUMBER_ID ACCESS_TOKEN : Option String)
    (payload : SendMessage) (response : HttpResponse) : HttpPost × Json :=
  send_whatsapp_text PHONE_NUMBER_ID ACCESS_TOKEN (.str payload.phone)
    payload.message response

-- ---------------------------------------------------------------------
-- 4. POST /send-template — send_template (main.py lines 242-265)
-- ---------------------------------------------------------------------

/-- Request body of `POST /send-template`, pydantic model
`SendTemplate`: `language` carries the declared default `"en_US"`. -/
structure SendTemplate where
  phone : String
  template_name : String
  language : String

/-- Pydantic construction of a `SendTemplate` from a request body in
which `language` may be absent: an absent field takes the declared
default `"en_US"`. -/
def SendTemplate.fromRequest (phone template_name : String)
    (language : Option String) : SendTemplate :=
  ⟨phone, template_name, language.getD "en_US"⟩

/-- The `requests.post` call `send_template` issues: same URL and
headers as the text sender, with the template-type payload whose
`template.language.code` is the payload language. -/
def send_template_request (PHONE_NUMBER_ID ACCESS_TOKEN : Option String)
    (payload : SendTemplate) : HttpPost :=
  ⟨GRAPH_API_BASE ++ "/" ++ pyStrOpt PHONE_NUMBER_ID ++ "/messages",
   [("Authorization", "Bearer " ++ pyStrOpt ACCESS_TOKEN),
    ("Content-Type", "application/json")],
   .obj [("messaging_product", .str "whatsapp"),
         ("to", .str payload.phone),
         ("type", .str "template"),
         ("template", .obj [("name", .str payload.template_name),
                            ("language", .obj [("code", .str payload.language)])])]⟩

/-- `POST /send-template` handler given the upstream response: returns
the call it issued together with its return value, which is
`response.json()` alone (no status code field is added). -/
def send_template (PHONE_NUMBER_ID ACCESS_TOKEN : Option String)
    (payload : SendTemplate) (response : HttpResponse) : HttpPost × Json :=
  (send_template_request PHONE_NUMBER_ID ACCESS_TOKEN payload, response.json)

-- ---------------------------------------------------------------------
-- 5. GET /media/{media_id} — get_media (main.py lines 278-301)
-- ---------------------------------------------------------------------

/-- `GET /media/{media_id}` given the network as a map from URL to
response.  Step 1 resolves `f"{GRAPH_API_BASE}/{media_id}"`; step 2
fetches `meta_res.json().get("url")`.  Returns the GET calls issued in
order, and either the response dict
`{"content_type": ..., "size": len(file_res.content)}` or `.error ()`
when an exception escapes: `.get` on a non-dict `.json()` raises
`AttributeError`, and `requests.get` on a missing or non-string URL
raises before any network traffic, so only the first call happened. -/
def get_media (ACCESS_TOKEN : Option String) (media_id : String)
    (network : String → HttpResponse) : List HttpGet × Except Unit Json :=
  let url := GRAPH_API_BASE ++ "/" ++ media_id
  let headers := [("Authorization", "Bearer " ++ pyStrOpt ACCESS_TOKEN)]
  let meta_res := network url
  match meta_res.json with
  | .obj fields =>
    match lookupField fields "url" with
    | some (.str media_url) =>
      let file_res := network media_url
      ([⟨url, headers⟩, ⟨media_url, headers⟩],
       .ok (.obj [("content_type",
                     jsonOfOptStr (headersGet file_res.headers "Content-Type")),
                  ("size", .num (file_res.content.length : Int))]))
    | _ => ([⟨url, headers⟩], .error ())
  | _ => ([⟨url, headers⟩], .error ())

-- ---------------------------------------------------------------------
-- Helper lemmas
-- ---------------------------------------------------------------------

/-- Bind on a successful `Except` computation. -/
theorem exceptBindOk {α β : Type} (a : α) (f : α → Except Unit β) :
    (Except.ok a >>= f : Except Unit β) = f a := rfl

/-- Bind on a failed `Except` computation. -/
theorem exceptBindError {α β : Type} (f : α → Except Unit β) :
    (Except.error () >>= f : Except Unit β) = Except.error () := rfl

-- ---------------------------------------------------------------------
-- Theorems for the claims
-- ---------------------------------------------------------------------

/-- C2: for every query triple whose mode is the literal `"subscribe"`
and whose token equals the configured verification secret, the
verification handler returns the challenge value unchanged as plain
text with success status 200. -/
theorem verify_webhook_subscribe_matches (secret challenge : String) :
    verify_webhook (some secret) (some "subscribe") (some secret) (some challenge) =
      VerifyResult.challenge (some challenge) := by
  simp [verify_webhook]

/-- C9: with the verification secret unset (`WHATSAPP_VERIFY_TOKEN`
absent, so `VERIFY_TOKEN` is `None`) and a request carrying
`hub.mode=subscribe` but no `hub.verify_token`, the two `None` values
compare equal and verification succeeds, echoing the (possibly absent)
challenge instead of responding 403. -/
theorem verify_webhook_unset_token_succeeds (challenge : Option String) :
    verify_webhook none (some "subscribe") none challenge =
      VerifyResult.challenge challenge := by
  simp [verify_webhook]

/-- C3, counterexample to the claim as stated: with the configured
secret `"fail"` and a query violating the mode condition, the handler
does respond 403, but its response detail `"Verification failed"`
contains the configured secret as a substring. -/
theorem verify_webhook_detail_contains_secret :
    verify_webhook (some "fail") none none none =
        VerifyResult.forbidden "Verification failed" ∧
      strContains "Verification failed" "fail" = true := by
  exact ⟨rfl, by decide⟩

/-- C3 (amended): for every query triple where the mode is not
`"subscribe"` or the token differs from the configured secret, the
handler fails with the 403 error whose detail is the fixed string
`"Verification failed"` — independent of the configured secret, so the
secret is never echoed (though it may coincide with a substring of that
fixed text). -/
theorem verify_webhook_mismatch_forbidden
    (VERIFY_TOKEN hub_mode hub_verify_token hub_challenge : Option String)
    (h : hub_mode ≠ some "subscribe" ∨ hub_verify_token ≠ VERIFY_TOKEN) :
    verify_webhook VERIFY_TOKEN hub_mode hub_verify_token hub_challenge =
      VerifyResult.forbidden "Verification failed" := by
  have hn : ¬ (hub_mode = some "subscribe" ∧ hub_verify_token = VERIFY_TOKEN) := by
    rcases h with h | h
    · exact fun hc => h hc.1
    · exact fun hc => h hc.2
  simp [verify_webhook, hn]

/-- Witness for `verify_webhook_mismatch_forbidden`: a concrete triple
with the wrong mode. -/
theorem verify_webhook_mismatch_forbidden_witness :
    verify_webhook (some "tok") (some "unsubscribe") (some "tok") (some "c") =
      VerifyResult.forbidden "Verification failed" :=
  verify_webhook_mismatch_forbidden (some "tok") (some "unsubscribe") (some "tok")
    (some "c") (Or.inl (by decide))

/-- C7: the outbound payload `POST /send-template` constructs carries
language code `"en_US"` when the request specifies no language, and the
specified language otherwise. -/
theorem send_template_language_code (PHONE_NUMBER_ID ACCESS_TOKEN : Option String)
    (phone template_name : String) :
    ((send_template_request PHONE_NUMBER_ID ACCESS_TOKEN
        (SendTemplate.fromRequest phone template_name none)).body =
      Json.obj [("messaging_product", .str "whatsapp"),
                ("to", .str phone),
                ("type", .str "template"),
                ("template", .obj [("name", .str template_name),
                                   ("language", .obj [("code", .str "en_US")])])]) ∧
    ∀ language : String,
      (send_template_request PHONE_NUMBER_ID ACCESS_TOKEN
          (SendTemplate.fromRequest phone template_name (some language))).body =
        Json.obj [("messaging_product", .str "whatsapp"),
                  ("to", .str phone),
                  ("type", .str "template"),
                  ("template", .obj [("name", .str template_name),
                                     ("language", .obj [("code", .str language)])])] :=
  ⟨rfl, fun _ => rfl⟩

/-- C8: the send-text operation returns an object carrying both the
upstream status code and the parsed upstream body (likewise through the
`POST /send-message` endpoint), whereas the send-template operation
returns the parsed upstream body alone, with no separately surfaced
status code. -/
theorem send_results_shape (PHONE_NUMBER_ID ACCESS_TOKEN : Option String)
    (phone : Json) (message : String) (sm : SendMessage) (st : SendTemplate)
    (response : HttpResponse) :
    ((send_whatsapp_text PHONE_NUMBER_ID ACCESS_TOKEN phone message response).2 =
      Json.obj [("status_code", .num response.status_code),
                ("response", response.json)]) ∧
    ((send_message PHONE_NUMBER_ID ACCESS_TOKEN sm response).2 =
      Json.obj [("status_code", .num response.status_code),
                ("response", response.json)]) ∧
    (send_template PHONE_NUMBER_ID ACCESS_TOKEN st response).2 = response.json :=
  ⟨rfl, rfl, rfl⟩

/-- C1, counterexample to the claim as stated: a request body that is
not valid JSON makes `await request.json()` raise **before** the
`try:` block, so the exception escapes the handler and the response is
not the success acknowledgment `{"status": "ok"}`. -/
theorem receive_webhook_invalid_json_not_ok :
    (receive_webhook none).1 ≠ ReceiveResult.ok := by
  decide

/-- C1 (amended): for every request body that parses as JSON —
including envelopes whose navigation or dispatch raises an exception —
the handler catches the failure inside its `try/except` and returns
the success acknowledgment `{"status": "ok"}` with status 200; a body
that is not valid JSON instead raises at the parse step, outside the
`try:` block, and is not caught. -/
theorem receive_webhook_always_ok_on_json (data : Json) :
    (receive_webhook (some data)).1 = ReceiveResult.ok := by
  cases h : webhookTryBlock data with
  | ok sends => simp [receive_webhook, h]
  | error e => cases e; simp [receive_webhook, h]

/-- The inbound event envelope of claim C4: one message of type
`"text"` with body `"hello"` from sender phone `P`. -/
def textHelloEnvelope (P : String) : Json :=
  .obj [("entry", .arr [
    .obj [("changes", .arr [
      .obj [("value", .obj [
        ("messages", .arr [
          .obj [("from", .str P),
                ("type", .str "text"),
                ("text", .obj [("body", .str "hello")])]])])]])]])]

/-- C4: on an envelope containing one text message with body `"hello"`
from sender phone `P`, the dispatcher triggers exactly one outbound
text send, addressed to `P`, with body `"You said: hello"`, and the
handler's HTTP response is the 200 acknowledgment `{"status": "ok"}`. -/
theorem receive_webhook_text_hello_autoreply (P : String) :
    receive_webhook (some (textHelloEnvelope P)) =
      (ReceiveResult.ok, [⟨Json.str P, "You said: hello"⟩]) := by
  rfl

/-- A `try:` block that ends with no sends — successfully or through a
caught exception — yields the 200 acknowledgment with no outbound
call. -/
theorem receive_of_tryBlock (data : Json)
    (h : webhookTryBlock data = .ok [] ∨ webhookTryBlock data = .error ()) :
    receive_webhook (some data) = (ReceiveResult.ok, []) := by
  rcases h with h | h <;> simp [receive_webhook, h]

/-- C5: for every valid-JSON envelope missing the expected nested keys
— navigation to `value` raises, or `value` is reached but neither
`"messages"` nor `"statuses"` membership holds — the event receiver
returns `{"status": "ok"}` and performs no outbound call. -/
theorem receive_webhook_malformed_no_send (data : Json)
    (h : webhookNavigate data = .error () ∨
         ∃ v, webhookNavigate data = .ok v ∧
           pyInStr "messages" v ≠ .ok true ∧ pyInStr "statuses" v ≠ .ok true) :
    receive_webhook (some data) = (ReceiveResult.ok, []) := by
  apply receive_of_tryBlock
  rcases h with h | ⟨v, hv, hm, hs⟩
  · right
    rw [webhookTryBlock, h]
    rfl
  · have ht : webhookTryBlock data = webhookDispatch v := by
      rw [webhookTryBlock, hv]
      rfl
    rw [ht]
    cases hmv : pyInStr "messages" v with
    | error e =>
      cases e
      right
      rw [webhookDispatch, hmv]
    | ok b =>
      cases b
      · cases hsv : pyInStr "statuses" v with
        | error e =>
          cases e
          right
          rw [webhookDispatch, hmv, hsv]
        | ok b2 =>
          cases b2
          · left
            rw [webhookDispatch, hmv, hsv]
          · exact absurd hsv hs
      · exact absurd hmv hm

/-- Witness for `receive_webhook_malformed_no_send`: the empty JSON
object has no `"entry"` key, so navigation raises at the first step. -/
theorem receive_webhook_malformed_no_send_witness :
    receive_webhook (some (Json.obj [])) = (ReceiveResult.ok, []) :=
  receive_webhook_malformed_no_send (Json.obj []) (Or.inl rfl)

/-- The `value` object of the counterexample envelope below: it holds
**both** a text message and a `"statuses"` list. -/
def mixedValue : Json :=
  .obj [("messages", .arr [
           .obj [("from", .str "1"),
                 ("type", .str "text"),
                 ("text", .obj [("body", .str "hi")])]]),
        ("statuses", .arr [.obj []])]

/-- An envelope whose `value` contains both `"messages"` and
`"statuses"`. -/
def mixedEnvelope : Json :=
  .obj [("entry", .arr [
    .obj [("changes", .arr [
      .obj [("value", mixedValue)]])]])]

/-- C10, counterexample to the claim as stated: `mixedEnvelope`'s
`value` contains `"statuses"`, yet the receiver triggers an outbound
text send, because the `elif "statuses"` branch is only reached when
`"messages"` is absent. -/
theorem receive_webhook_statuses_with_messages_sends :
    webhookNavigate mixedEnvelope = .ok mixedValue ∧
      pyInStr "statuses" mixedValue = .ok true ∧
      receive_webhook (some mixedEnvelope) =
        (ReceiveResult.ok, [⟨Json.str "1", "You said: hi"⟩]) :=
  ⟨rfl, rfl, rfl⟩

/-- C10 (amended): for every well-formed envelope whose `value`
carries a `"messages"` list whose first message declares a type other
than `"text"`, `"audio"` or `"image"`, and for every envelope whose
`value` carries `"statuses"` but not `"messages"`, the event receiver
performs no outbound call and returns `{"status": "ok"}`. -/
theorem receive_webhook_nontext_or_statuses_no_send (data v : Json)
    (hv : webhookNavigate data = .ok v)
    (h : (pyInStr "messages" v = .ok true ∧
          ∃ m ty,
            (pySubscriptStr v "messages" >>= fun ms => pySubscriptNat ms 0) = .ok m ∧
            pySubscriptStr m "type" = .ok ty ∧
            ty.eqStr "text" = false ∧ ty.eqStr "audio" = false ∧
            ty.eqStr "image" = false) ∨
         (pyInStr "messages" v = .ok false ∧ pyInStr "statuses" v = .ok true)) :
    receive_webhook (some data) = (ReceiveResult.ok, []) := by
  apply receive_of_tryBlock
  have ht : webhookTryBlock data = webhookDispatch v := by
    rw [webhookTryBlock, hv]
    rfl
  rw [ht]
  rcases h with ⟨hmem, m, ty, hm, hty, h1, h2, h3⟩ | ⟨hmem, hst⟩
  · cases hfrom : pySubscriptStr m "from" with
    | error e =>
      cases e
      right
      simp only [webhookDispatch, webhookMessages, hmem, hm, hfrom]
    | ok sender_phone =>
      left
      simp only [webhookDispatch, webhookMessages, hmem, hm, hfrom, hty, h1, h2, h3,
        Bool.false_eq_true, if_false]
  · cases hread : pySubscriptStr v "statuses" with
    | error e =>
      cases e
      right
      simp only [webhookDispatch, hmem, hst, hread]
    | ok statuses =>
      left
      simp only [webhookDispatch, hmem, hst, hread]

/-- A well-formed envelope whose one message declares type
`"video"`. -/
def videoEnvelope : Json :=
  .obj [("entry", .arr [
    .obj [("changes", .arr [
      .obj [("value", .obj [
        ("messages", .arr [
          .obj [("from", .str "1"),
                ("type", .str "video"),
                ("video", .obj [("id", .str "M9")])]])])]])]])]

/-- The `value` object of `videoEnvelope`. -/
def videoValue : Json :=
  .obj [("messages", .arr [
    .obj [("from", .str "1"),
          ("type", .str "video"),
          ("video", .obj [("id", .str "M9")])]])]

/-- Witness for `receive_webhook_nontext_or_statuses_no_send`: the
`"video"`-typed message matches none of the three handled types. -/
theorem receive_webhook_nontext_no_send_witness :
    receive_webhook (some videoEnvelope) = (ReceiveResult.ok, []) :=
  receive_webhook_nontext_or_statuses_no_send videoEnvelope videoValue rfl
    (Or.inl ⟨rfl,
      ⟨Json.obj [("from", .str "1"), ("type", .str "video"),
                 ("video", .obj [("id", .str "M9")])],
       Json.str "video", rfl, rfl, rfl, rfl, rfl⟩⟩)

/-- C6: whenever the resolution response's JSON body is a dict whose
`"url"` member is a string, the media proxy issues exactly two outbound
GET calls in order — the resolve call on
`f"{GRAPH_API_BASE}/{media_id}"`, then the fetch of that URL — and
returns the object whose `"size"` is the byte length of the fetched
payload and whose `"content_type"` is the fetched response's content
type; the fetched bytes appear nowhere in the returned object. -/
theorem get_media_two_calls (ACCESS_TOKEN : Option String)
    (media_id media_url : String) (network : String → HttpResponse)
    (fields : List (String × Json))
    (hjson : (network (GRAPH_API_BASE ++ "/" ++ media_id)).json = .obj fields)
    (hurl : lookupField fields "url" = some (.str media_url)) :
    get_media ACCESS_TOKEN media_id network =
      ([⟨GRAPH_API_BASE ++ "/" ++ media_id,
         [("Authorization", "Bearer " ++ pyStrOpt ACCESS_TOKEN)]⟩,
        ⟨media_url,
         [("Authorization", "Bearer " ++ pyStrOpt ACCESS_TOKEN)]⟩],
       .ok (.obj [("content_type",
                     jsonOfOptStr (headersGet (network media_url).headers
                       "Content-Type")),
                  ("size", .num ((network media_url).content.length : Int))])) := by
  simp [get_media, hjson, hurl]

/-- A two-URL network for the media-proxy witness: the resolve URL
yields `{"url": ...}`, everything else yields a 3-byte JPEG payload. -/
def demoNetwork : String → HttpResponse := fun url =>
  if url = GRAPH_API_BASE ++ "/" ++ "MEDIA1" then
    ⟨200, .obj [("url", .str "https://cdn.example.com/file1")], [], []⟩
  else
    ⟨200, .null, [("Content-Type", "image/jpeg")], [10, 20, 30]⟩

/-- Witness for `get_media_two_calls` on `demoNetwork`. -/
theorem get_media_two_calls_witness :
    get_media (some "TOKEN") "MEDIA1" demoNetwork =
      ([⟨GRAPH_API_BASE ++ "/" ++ "MEDIA1",
         [("Authorization", "Bearer " ++ pyStrOpt (some "TOKEN"))]⟩,
        ⟨"https://cdn.example.com/file1",
         [("Authorization", "Bearer " ++ pyStrOpt (some "TOKEN"))]⟩],
       .ok (.obj [("content_type",
                     jsonOfOptStr (headersGet
                       (demoNetwork "https://cdn.example.com/file1").headers
                       "Content-Type")),
                  ("size",
                     .num ((demoNetwork
                       "https://cdn.example.com/file1").content.length : Int))])) :=
  get_media_two_calls (some "TOKEN") "MEDIA1" "https://cdn.example.com/file1"
    demoNetwork [("url", Json.str "https://cdn.example.com/file1")] rfl rfl

end WhatsAppBackend
